import Mathlib

/-!
Verification of the chunked dictionary-indexing pipeline of kikuchipy
(`kikuchipy/indexing/_dictionary_indexing.py`) and the L2-normalization
kernels of the normalized-dot-product metric
(`kikuchipy/indexing/similarity_metrics/_normalized_dot_product.py`).

Similarity scores are modelled as integers: the driver treats scores as
opaque totally ordered values (it only compares, negates and sorts them),
so any linearly ordered commutative ring is a faithful model of the float
scores it manipulates.  The normalization kernels, which do real
arithmetic, are modelled over `ℝ`.
-/

namespace DictIndexing

/-- `np.cumsum`: running partial sums of a list (the `i`-th entry is the
sum of the first `i+1` inputs). -/
def cumsumFrom (acc : Nat) : List Nat → List Nat
  | [] => []
  | x :: xs => (acc + x) :: cumsumFrom (acc + x) xs

/-- `np.cumsum l`. -/
def cumsum (l : List Nat) : List Nat :=
  cumsumFrom 0 l

/-- Ordering used to model NumPy/Dask sorting of a keyed, `enum`-indexed
list: strictly smaller key first, ties broken by original position
(stable, "first occurrence wins"). -/
abbrev idxKeyRel (key : α → ℤ) (p q : Nat × α) : Prop :=
  key p.2 < key q.2 ∨ (key p.2 = key q.2 ∧ p.1 ≤ q.1)

/-- Stable sort of a list by an integer key, ascending.  Models
`np.argsort` (taken as stable) combined with `np.take_along_axis`:
elements come out in ascending key order, ties in original order. -/
def stableSortBy (key : α → ℤ) (l : List α) : List α :=
  ((l.enum).insertionSort (idxKeyRel key)).map Prod.snd

/-- Modelled from the spec: the abstract `SimilarityMetric` contract
(§4.1; the base class `_similarity_metric.py` is not among the provided
source files).  `sign` is `+1` if a higher score is better and `-1`
otherwise; preparation (flatten, mask, normalize) acts row-independently;
`similarity` gives one entry of the comparison tensor produced by
`compare`/`match`. -/
structure SimilarityMetric where
  sign : ℤ
  prepareRow : List ℤ → List ℤ
  similarity : List ℤ → List ℤ → ℤ

/-- Modelled from the spec: `metric.prepare_experimental` prepares each
experimental pattern row independently (§4.1, §5). -/
def prepare_experimental (metric : SimilarityMetric)
    (patterns : List (List ℤ)) : List (List ℤ) :=
  patterns.map metric.prepareRow

/-- Modelled from the spec: `metric.prepare_dictionary` prepares each
dictionary-chunk row independently (§4.1, §5). -/
def prepare_dictionary (metric : SimilarityMetric)
    (chunk : List (List ℤ)) : List (List ℤ) :=
  chunk.map metric.prepareRow

/-- `_match_chunk` (source lines 144-175) for `keep_n ≥ 1`: prepare the
simulated chunk, compute the similarity tensor
`metric.match(experimental, simulated)`, then take
`similarities.argtopk(keep_n)` / `similarities.topk(keep_n)` (Dask
semantics for positive `keep_n`: the `keep_n` LARGEST entries, sorted
from largest to smallest; note the source does not involve `metric.sign`
here) and reshape to one row of `keep_n` entries per experimental
pattern.  Index/score pairs keep the two outputs aligned, exactly as
`argtopk`/`topk` share one ordering.  The `ZeroDivisionError` that the
`reshape((-1, keep_n))` of lines 171-173 raises when `keep_n = 0` (the
-1 dimension of a size-0 array cannot be inferred: 0 ∕ 0) is modelled by
`_match_chunk_checked` below. -/
def _match_chunk (metric : SimilarityMetric)
    (experimental simulated : List (List ℤ)) (keep_n : Nat) :
    List (List (Nat × ℤ)) :=
  let simulatedP := prepare_dictionary metric simulated
  experimental.map fun e =>
    let similarities := simulatedP.map (metric.similarity e)
    (stableSortBy (fun p => -p.2) similarities.enum).take keep_n

/-- `chunk_starts = np.cumsum([0] + [n_per_iteration] * (n_iterations - 1))`
(source line 102). -/
def chunk_starts (n_per_iteration n_iterations : Nat) : List Nat :=
  cumsum (0 :: List.replicate (n_iterations - 1) n_per_iteration)

/-- `chunk_ends = np.cumsum([n_per_iteration] * n_iterations)` followed by
`chunk_ends[-1] = max(chunk_ends[-1], dictionary_size)` (source lines
103-104).  Only evaluated with `n_iterations ≥ 1`; the driver models the
`IndexError` that `chunk_ends[-1]` raises on the empty array separately. -/
def chunk_ends (n_per_iteration n_iterations dictionary_size : Nat) :
    List Nat :=
  let ce := cumsum (List.replicate n_iterations n_per_iteration)
  ce.dropLast ++ [max (ce.getLast?.getD 0) dictionary_size]

/-- The multi-chunk branch of `_dictionary_indexing` (source lines
95-129), with `n_iterations` as an explicit parameter: running buffers
initialized to index `0` and score `metric.sign`, then for each chunk
`[start, end)` in order: slice the dictionary, `_match_chunk` with
`min(keep_n, end - start)`, offset local indices by `start`, and merge by
`hstack` + stable `argsort(negative_sign * all_scores)` + keep the first
`keep_n` columns of both arrays in lockstep. -/
def multiChunkPath (metric : SimilarityMetric)
    (experimental dictionary : List (List ℤ))
    (keep_n n_per_iteration n_iterations : Nat) :
    List (List (Nat × ℤ)) :=
  let n_experimental := experimental.length
  let init : List (List (Nat × ℤ)) :=
    List.replicate n_experimental (List.replicate keep_n ((0 : Nat), metric.sign))
  let negative_sign := -metric.sign
  let starts := chunk_starts n_per_iteration n_iterations
  let ends := chunk_ends n_per_iteration n_iterations dictionary.length
  (List.zip starts ends).foldl
    (fun running se =>
      let simulated := (dictionary.drop se.1).take (se.2 - se.1)
      let chunkResult := _match_chunk metric experimental simulated (min keep_n (se.2 - se.1))
      let chunkResult := chunkResult.map (List.map fun p => (p.1 + se.1, p.2))
      List.zipWith
        (fun run ch =>
          (stableSortBy (fun p => negative_sign * p.2) (run ++ ch)).take keep_n)
        running chunkResult)
    init

/-- Python exceptions the driver can raise: `ZeroDivisionError` from
`dictionary_size // n_per_iteration` with `n_per_iteration = 0` (line 67),
`IndexError` from `chunk_ends[-1]` on an empty `chunk_ends` (line 104). -/
inductive DIError where
  | zeroDivisionError
  | indexError
deriving DecidableEq

instance {ε α : Type} [DecidableEq ε] [DecidableEq α] :
    DecidableEq (Except ε α) := fun a b =>
  match a, b with
  | .error e, .error f =>
    if h : e = f then isTrue (by rw [h])
    else isFalse (by intro hh; cases hh; exact h rfl)
  | .error _, .ok _ => isFalse (by intro hh; cases hh)
  | .ok _, .error _ => isFalse (by intro hh; cases hh)
  | .ok x, .ok y =>
    if h : x = y then isTrue (by rw [h])
    else isFalse (by intro hh; cases hh; exact h rfl)

/-- `_match_chunk` including its reshape error path (source lines
165-175): after `argtopk`/`topk`, both outputs are reshaped with
`out_shape = (-1, keep_n)` (lines 171-173).  For `keep_n = 0` the
reshape of the resulting size-0 dask array raises `ZeroDivisionError`
(the -1 dimension is inferred by dividing the total size 0 by the
product of the known dimensions, 0); for `keep_n ≥ 1` the reshape just
lays the results out one row per experimental pattern, which is the
layout `_match_chunk` already produces. -/
def _match_chunk_checked (metric : SimilarityMetric)
    (experimental simulated : List (List ℤ)) (keep_n : Nat) :
    Except DIError (List (List (Nat × ℤ))) :=
  if keep_n = 0 then
    .error .zeroDivisionError
  else
    .ok (_match_chunk metric experimental simulated keep_n)

/-- `_dictionary_indexing` (source lines 34-141), restricted to the data
the claims are about: the per-experimental-row `(simulation_index, score)`
pairs that the source attaches to the crystal map as `simulation_indices`
and `scores`.  Faithful to the control flow of the source: clamp
`keep_n = min(keep_n, dictionary_size)` (line 66); Python floor division
`dictionary_size // n_per_iteration` raises `ZeroDivisionError` when
`n_per_iteration == 0` (line 67); single-pass fast path when
`dictionary_size == n_per_iteration` (lines 85-93), where the
`_match_chunk` call raises `ZeroDivisionError` from its reshape when the
clamped `keep_n` is 0; otherwise the multi-chunk branch, where
`chunk_ends` is empty iff `n_iterations == 0` and `chunk_ends[-1]` then
raises `IndexError` before any chunk is matched (lines 102-104), and
where otherwise every chunk `[start, end)` is non-empty (for
`n_iterations ≥ 1` full chunks have `n_per_iteration ≥ 1` rows and the
last chunk ends at `dictionary_size ≥ n_iterations * n_per_iteration`),
so `min(keep_n, end - start) = 0` iff the clamped `keep_n` is 0 and the
first loop iteration's `_match_chunk` then raises the same
`ZeroDivisionError` from its reshape before any merge result exists. -/
def _dictionary_indexing (metric : SimilarityMetric)
    (experimental dictionary : List (List ℤ))
    (keep_n n_per_iteration : Nat) :
    Except DIError (List (List (Nat × ℤ))) :=
  let dictionary_size := dictionary.length
  let keep_n := min keep_n dictionary_size
  if n_per_iteration = 0 then
    .error .zeroDivisionError
  else
    let n_iterations := dictionary_size / n_per_iteration
    let experimentalP := prepare_experimental metric experimental
    if dictionary_size = n_per_iteration then
      _match_chunk_checked metric experimentalP dictionary keep_n
    else if n_iterations = 0 then
      .error .indexError
    else if keep_n = 0 then
      .error .zeroDivisionError
    else
      .ok (multiChunkPath metric experimentalP dictionary keep_n n_per_iteration n_iterations)

/-- The `scores` property of the returned crystal map. -/
def scoresOf (result : List (List (Nat × ℤ))) : List (List ℤ) :=
  result.map (List.map Prod.snd)

/-- The `simulation_indices` property of the returned crystal map. -/
def indicesOf (result : List (List (Nat × ℤ))) : List (List Nat) :=
  result.map (List.map Prod.fst)

/-- Plain dot product; used to build concrete metric instances. -/
def dotProduct (a b : List ℤ) : ℤ :=
  (List.zipWith (· * ·) a b).sum

/-- A concrete deterministic higher-is-better metric (`sign = +1`),
comparing raw patterns by dot product. -/
def exMetric : SimilarityMetric :=
  { sign := 1, prepareRow := id, similarity := dotProduct }

/-- A concrete deterministic lower-is-better metric (`sign = -1`). -/
def negMetric : SimilarityMetric :=
  { sign := -1, prepareRow := id, similarity := dotProduct }

end DictIndexing

namespace NormKernel

/-- `_normalize_pattern1d_float64` (source lines 84-87):
`pattern / np.sqrt(np.sum(np.square(pattern)))`, with no guard on the
norm. -/
noncomputable def _normalize_pattern1d_float64 (pattern : List ℝ) : List ℝ :=
  let pattern_norm := Real.sqrt ((pattern.map fun x => x ^ 2).sum)
  pattern.map fun x => x / pattern_norm

/-- `_normalize_pattern1d_float32` (source lines 78-81): identical body,
32-bit variant. -/
noncomputable def _normalize_pattern1d_float32 (pattern : List ℝ) : List ℝ :=
  let pattern_norm := Real.sqrt ((pattern.map fun x => x ^ 2).sum)
  pattern.map fun x => x / pattern_norm

/-- Modelled from the spec: the reference naive per-row L2 normalization
"for a pattern vector v, output v / sqrt(sum(v_i^2))" (§4.2). -/
noncomputable def naiveL2Normalize (v : List ℝ) : List ℝ :=
  v.map fun x => x / Real.sqrt ((v.map fun y => y ^ 2).sum)

end NormKernel

namespace DictIndexing

section SortingLemmas

variable {α : Type}

/-- The stable keyed comparison is total. -/
theorem idxKeyRel_total (key : α → ℤ) :
    ∀ p q : Nat × α, idxKeyRel key p q ∨ idxKeyRel key q p := by
  intro p q
  rcases lt_trichotomy (key p.2) (key q.2) with h | h | h
  · exact Or.inl (Or.inl h)
  · rcases Nat.le_total p.1 q.1 with h' | h'
    · exact Or.inl (Or.inr ⟨h, h'⟩)
    · exact Or.inr (Or.inr ⟨h.symm, h'⟩)
  · exact Or.inr (Or.inl h)

/-- The stable keyed comparison is transitive. -/
theorem idxKeyRel_trans (key : α → ℤ) :
    ∀ p q r : Nat × α, idxKeyRel key p q → idxKeyRel key q r → idxKeyRel key p r := by
  intro p q r hpq hqr
  rcases hpq with h1 | ⟨h1, h1'⟩ <;> rcases hqr with h2 | ⟨h2, h2'⟩
  · exact Or.inl (h1.trans h2)
  · exact Or.inl (h2 ▸ h1)
  · exact Or.inl (h1 ▸ h2)
  · exact Or.inr ⟨h1.trans h2, h1'.trans h2'⟩

/-- The output of `stableSortBy` is sorted (ascending) on its key. -/
theorem pairwise_key_stableSortBy (key : α → ℤ) (l : List α) :
    (stableSortBy key l).Pairwise fun a b => key a ≤ key b := by
  have hs : (l.enum.insertionSort (idxKeyRel key)).Sorted (idxKeyRel key) := by
    haveI : IsTotal (Nat × α) (idxKeyRel key) := ⟨idxKeyRel_total key⟩
    haveI : IsTrans (Nat × α) (idxKeyRel key) := ⟨idxKeyRel_trans key⟩
    exact List.sorted_insertionSort _ _
  exact hs.map Prod.snd fun p q h =>
    h.elim le_of_lt fun h' => le_of_eq h'.1

/-- Taking a prefix of a `stableSortBy` result keeps it key-sorted. -/
theorem pairwise_key_take (key : α → ℤ) (l : List α) (n : Nat) :
    ((stableSortBy key l).take n).Pairwise fun a b => key a ≤ key b :=
  List.Pairwise.sublist (List.take_sublist n _) (pairwise_key_stableSortBy key l)

/-- Every element of a `zipWith` is an application of the function. -/
theorem exists_of_mem_zipWith {β γ : Type} {f : α → β → γ} :
    ∀ {as : List α} {bs : List β} {x : γ},
      x ∈ List.zipWith f as bs → ∃ a b, x = f a b := by
  intro as
  induction as with
  | nil => intro bs x h; simp at h
  | cons a as ih =>
      intro bs x h
      cases bs with
      | nil => simp at h
      | cons b bs =>
          rw [List.zipWith_cons_cons] at h
          rcases List.mem_cons.mp h with h | h
          · exact ⟨a, b, h⟩
          · exact ih h

/-- A property that holds of every row produced by the folding step, and of
every initial row, holds of every row of the fold result. -/
theorem foldl_mem_invariant {σ β : Type} {P : β → Prop} (f : List β → σ → List β)
    (hstep : ∀ acc s row, row ∈ f acc s → P row) :
    ∀ (l : List σ) (init : List β), (∀ row ∈ init, P row) →
      ∀ row ∈ l.foldl f init, P row := by
  intro l
  induction l with
  | nil => intro init h row hr; exact h row hr
  | cons s l ih =>
      intro init h row hr
      exact ih (f init s) (fun r hrr => hstep init s r hrr) row hr

end SortingLemmas

/-- Each row of a `_match_chunk` result has non-increasing scores (Dask
`topk` with positive argument sorts from largest to smallest), regardless
of the sign of the metric. -/
theorem matchChunk_mem_row (metric : SimilarityMetric)
    (experimental simulated : List (List ℤ)) (keep_n : Nat)
    {row : List (Nat × ℤ)}
    (h : row ∈ _match_chunk metric experimental simulated keep_n) :
    (row.map Prod.snd).Pairwise fun a b : ℤ => b ≤ a := by
  simp only [_match_chunk, List.mem_map] at h
  obtain ⟨e, -, rfl⟩ := h
  exact (pairwise_key_take (fun p : Nat × ℤ => -p.2) _ keep_n).map Prod.snd
    fun p q h => by omega

/-- Each row of the multi-chunk branch's result is sorted ascending on the
merge key `negative_sign * score`. -/
theorem multiChunkPath_mem_row (metric : SimilarityMetric)
    (experimental dictionary : List (List ℤ))
    (keep_n n_per_iteration n_iterations : Nat)
    {row : List (Nat × ℤ)}
    (h : row ∈ multiChunkPath metric experimental dictionary keep_n n_per_iteration n_iterations) :
    (row.map Prod.snd).Pairwise
      fun a b : ℤ => -metric.sign * a ≤ -metric.sign * b := by
  simp only [multiChunkPath] at h
  refine @foldl_mem_invariant _ _
    (fun r => (r.map Prod.snd).Pairwise fun a b : ℤ => -metric.sign * a ≤ -metric.sign * b)
    _ ?step _ _ ?init row h
  case step =>
    intro acc se r hr
    obtain ⟨run, ch, rfl⟩ := exists_of_mem_zipWith hr
    exact (pairwise_key_take (fun p : Nat × ℤ => -metric.sign * p.2) _ keep_n).map
      Prod.snd fun p q h => h
  case init =>
    intro r hr
    rw [List.eq_of_mem_replicate hr, List.map_replicate]
    exact List.pairwise_replicate.mpr (Or.inr le_rfl)

/-- Any result the driver returns successfully has, per row, scores sorted
ascending on the merge key, provided the metric has `sign = 1` (higher is
better): non-increasing scores. -/
theorem dictionaryIndexing_ok_rows_sorted (metric : SimilarityMetric)
    (experimental dictionary : List (List ℤ)) (keep_n n_per_iteration : Nat)
    (res : List (List (Nat × ℤ)))
    (h : _dictionary_indexing metric experimental dictionary keep_n n_per_iteration = .ok res)
    (hsign : metric.sign = 1) {row : List (Nat × ℤ)} (hrow : row ∈ res) :
    (row.map Prod.snd).Pairwise fun a b : ℤ => b ≤ a := by
  simp only [_dictionary_indexing, _match_chunk_checked] at h
  split at h
  · cases h
  · split at h
    · split at h
      · cases h
      · injection h with h'
        subst h'
        exact matchChunk_mem_row _ _ _ _ hrow
    · split at h
      · cases h
      · split at h
        · cases h
        · injection h with h'
          subst h'
          refine (multiChunkPath_mem_row _ _ _ _ _ _ hrow).imp ?_
          intro a b hab
          rw [hsign] at hab
          omega

section ChunkLemmas

/-- Closed form of the running sums of a constant list. -/
theorem cumsumFrom_replicate (n : Nat) :
    ∀ (k acc : Nat), cumsumFrom acc (List.replicate k n) =
      (List.range k).map fun i => acc + (i + 1) * n := by
  intro k
  induction k with
  | zero => intro acc; rfl
  | succ m ih =>
      intro acc
      rw [List.replicate_succ]
      show (acc + n) :: cumsumFrom (acc + n) (List.replicate m n) = _
      rw [ih (acc + n), List.range_succ_eq_map]
      refine congrArg₂ List.cons (by ring) ?_
      rw [List.map_map]
      refine List.map_congr_left fun i _ => ?_
      simp only [Function.comp_apply, Nat.succ_eq_add_one]
      ring

/-- Closed form of `np.cumsum([n] * k)`. -/
theorem cumsum_replicate (k n : Nat) :
    cumsum (List.replicate k n) = (List.range k).map fun i => (i + 1) * n := by
  unfold cumsum
  rw [cumsumFrom_replicate]
  refine List.map_congr_left fun i _ => ?_
  omega

/-- For at least one iteration, the chunk start offsets are
`0, n, 2n, ...`. -/
theorem chunk_starts_eq (n k : Nat) (hk : 1 ≤ k) :
    chunk_starts n k = (List.range k).map fun i => i * n := by
  obtain ⟨m, rfl⟩ : ∃ m, k = m + 1 := ⟨k - 1, by omega⟩
  unfold chunk_starts cumsum
  show (0 + 0) :: cumsumFrom (0 + 0) (List.replicate m n) = _
  rw [Nat.add_zero, cumsumFrom_replicate, List.range_succ_eq_map]
  refine congrArg₂ List.cons (by ring) ?_
  rw [List.map_map]
  refine List.map_congr_left fun i _ => ?_
  simp only [Function.comp_apply, Nat.succ_eq_add_one]
  ring

/-- For at least one iteration with `k * n ≤ d`, the chunk end offsets are
`n, 2n, ..., (k-1)n` followed by `d` (the last end extended to the
dictionary size). -/
theorem chunk_ends_eq (n k d : Nat) (hk : 1 ≤ k) (hkd : k * n ≤ d) :
    chunk_ends n k d = ((List.range (k - 1)).map fun i => (i + 1) * n) ++ [d] := by
  obtain ⟨m, rfl⟩ : ∃ m, k = m + 1 := ⟨k - 1, by omega⟩
  unfold chunk_ends
  rw [cumsum_replicate, List.range_succ, List.map_append]
  simp only [List.map_cons, List.map_nil, List.dropLast_concat, List.getLast?_concat,
    Option.getD_some, Nat.add_sub_cancel]
  rw [Nat.max_eq_right hkd]

/-- The chunk `(start, end)` pairs: `k - 1` full chunks of `n` rows and a
final chunk ending at `d`. -/
theorem chunk_zip_eq (n k d : Nat) (hk : 1 ≤ k) (hkd : k * n ≤ d) :
    List.zip (chunk_starts n k) (chunk_ends n k d) =
      ((List.range (k - 1)).map fun i => (i * n, (i + 1) * n)) ++ [((k - 1) * n, d)] := by
  obtain ⟨m, rfl⟩ : ∃ m, k = m + 1 := ⟨k - 1, by omega⟩
  rw [chunk_starts_eq n (m + 1) hk, chunk_ends_eq n (m + 1) d hk hkd]
  simp only [Nat.add_sub_cancel]
  rw [List.range_succ, List.map_append, List.map_cons, List.map_nil,
    List.zip_append (by simp), List.zip_map']
  rfl

/-- Concatenating the half-open index ranges of `m` consecutive chunks of
`n` rows gives the first `m * n` indices. -/
theorem flatMap_full_chunks (n : Nat) :
    ∀ m : Nat, (((List.range m).map fun i => (i * n, (i + 1) * n)).flatMap
      fun se => List.range' se.1 (se.2 - se.1)) = List.range' 0 (m * n) := by
  intro m
  induction m with
  | zero => simp
  | succ j ih =>
      rw [List.range_succ, List.map_append, List.flatMap_append, ih]
      simp only [List.map_cons, List.map_nil, List.flatMap_cons, List.flatMap_nil,
        List.append_nil]
      have h1 : (j + 1) * n - j * n = n := by
        have h0 : (j + 1) * n = j * n + n := by ring
        omega
      rw [h1]
      have h2 := List.range'_append 0 (j * n) n 1
      simp only [Nat.one_mul, Nat.zero_add] at h2
      rw [h2]
      congr 1
      ring

end ChunkLemmas

/-- C1: refuted; evaluation of the code at a failing input.  With the
higher-is-better metric exMetric (sign = +1) on one experimental pattern
and a three-row dictionary with keep_n = 2 and n_per_iteration = 2, the
multi-chunk path returns the sentinel-initialized buffers — score 1
(= metric.sign) at index 0 twice — whereas a single full-dictionary pass
through _match_chunk with the same metric and keep_n returns the true
matches (index 0 with score 0, index 1 with score -1).  The chunked
result therefore differs from the single-pass result, because the running
scores buffer is initialized with metric.sign, the BEST possible value
under the metric ordering, so the merge never admits a real match. -/
theorem C1_chunked_differs_from_single_pass :
    _dictionary_indexing exMetric [[1]] [[0], [-1], [-2]] 2 2 =
        .ok [[(0, 1), (0, 1)]] ∧
    _match_chunk exMetric (prepare_experimental exMetric [[1]]) [[0], [-1], [-2]] 2 =
        [[(0, 0), (1, -1)]] ∧
    ([[((0 : Nat), (1 : ℤ)), (0, 1)]] : List (List (Nat × ℤ))) ≠
        [[(0, 0), (1, -1)]] :=
  ⟨by decide, by decide, by decide⟩

/-- C2: refuted; evaluation of the code at a failing input.  The running
scores buffer is initialized with metric.sign = 1, which is GREATER than
(better than, for a higher-is-better metric) the largest real similarity
score 0 of this input, so the sentinel displaces every real match in the
chunk merge: the driver returns the sentinel pair (index 0, score 1)
although the true best match of the single experimental row is index 0
with score 0. -/
theorem C2_sentinel_displaces_real_match :
    exMetric.sign = 1 ∧
    _dictionary_indexing exMetric [[2]] [[0], [-1], [-2]] 1 2 = .ok [[(0, 1)]] ∧
    exMetric.similarity [2] [0] = 0 ∧ (0 : ℤ) < exMetric.sign :=
  ⟨rfl, by decide, by decide, by decide⟩

/-- C3: confirmed.  Concretely, dictionary_size = 23 with
n_per_iteration = 10 gives n_iterations = 23 ∕ 10 = 2 and chunk
boundaries [0, 10) and [10, 23).  Generally, for 1 ≤ n_per_iteration ≤
dictionary_size, the last chunk end equals dictionary_size, and
concatenating the half-open index ranges of the chunks in order yields every
dictionary row index 0, ..., dictionary_size - 1 exactly once
(consecutive chunks, no dropped remainder rows). -/
theorem C3_chunk_boundaries_cover :
    (23 / 10 = 2 ∧
      List.zip (chunk_starts 10 2) (chunk_ends 10 2 23) = [(0, 10), (10, 23)]) ∧
    ∀ n d : Nat, 1 ≤ n → n ≤ d →
      (chunk_ends n (d / n) d).getLast? = some d ∧
      ((List.zip (chunk_starts n (d / n)) (chunk_ends n (d / n) d)).flatMap
        fun se => List.range' se.1 (se.2 - se.1)) = List.range d := by
  refine ⟨⟨by decide, by decide⟩, ?_⟩
  intro n d hn hd
  have hk1 : 1 ≤ d / n := (Nat.one_le_div_iff (by omega)).mpr hd
  have hkd : d / n * n ≤ d := Nat.div_mul_le_self d n
  refine ⟨by rw [chunk_ends_eq n (d / n) d hk1 hkd, List.getLast?_concat], ?_⟩
  rw [chunk_zip_eq n (d / n) d hk1 hkd, List.flatMap_append, flatMap_full_chunks]
  simp only [List.flatMap_cons, List.flatMap_nil, List.append_nil]
  have hklt : (d / n - 1) * n ≤ d :=
    le_trans (Nat.mul_le_mul_right n (by omega)) hkd
  have h2 := List.range'_append 0 ((d / n - 1) * n) (d - (d / n - 1) * n) 1
  simp only [Nat.one_mul, Nat.zero_add] at h2
  rw [List.range_eq_range', h2,
    show d - (d / n - 1) * n + (d / n - 1) * n = d from by omega]

/-- Witness for C3 at the concrete input n_per_iteration = 10,
dictionary_size = 23. -/
theorem C3_chunk_boundaries_cover_witness :
    (chunk_ends 10 (23 / 10) 23).getLast? = some 23 ∧
    ((List.zip (chunk_starts 10 (23 / 10)) (chunk_ends 10 (23 / 10) 23)).flatMap
      fun se => List.range' se.1 (se.2 - se.1)) = List.range 23 :=
  C3_chunk_boundaries_cover.2 10 23 (by decide) (by decide)

/-- C4: refuted; evaluation of the code at a failing input.  When
dictionary_size = n_per_iteration = 2 the driver takes the single-pass
fast path and returns the true matches, but the general multi-chunk path
run on the same data with n_iterations forced to 1 returns the
sentinel-initialized buffers instead (the sentinel score metric.sign = 1
beats every real score of this input in the merge), so the two outputs
differ. -/
theorem C4_fast_path_differs_from_forced_single_iteration :
    _dictionary_indexing exMetric [[1]] [[0], [-1]] 2 2 = .ok [[(0, 0), (1, -1)]] ∧
    multiChunkPath exMetric (prepare_experimental exMetric [[1]]) [[0], [-1]] 2 2 1 =
        [[(0, 1), (0, 1)]] ∧
    ([[((0 : Nat), (0 : ℤ)), (1, -1)]] : List (List (Nat × ℤ))) ≠
        [[(0, 1), (0, 1)]] :=
  ⟨by decide, by decide, by decide⟩

/-- C5: partially refuted; evaluation of the code at a failing input.
keep_n = 5 is indeed silently clamped to dictionary_size = 3 (the result
rows have 3 entries), but on the multi-chunk path the returned entries
are all sentinel pairs (index 0, score 1 = metric.sign) rather than real
matches: the actual similarity of experimental row 0 with dictionary row
0 is 0, not 1, so sentinel entries do survive into the result. -/
theorem C5_clamped_result_contains_sentinels :
    _dictionary_indexing exMetric [[1]] [[0], [-1], [-2]] 5 2 =
        .ok [[(0, 1), (0, 1), (0, 1)]] ∧
    exMetric.similarity [1] [0] = 0 ∧ ((0 : ℤ) ≠ 1) :=
  ⟨by decide, by decide, by decide⟩

/-- C6: counterexample to the claim as stated.  With a lower-is-better
metric (sign = -1) whose dictionary size equals n_per_iteration, the
driver takes the fast path through _match_chunk, which always returns
scores sorted from largest to smallest (Dask topk ignores the sign), so
the returned row scores 0, -1 are NOT monotonically non-decreasing as the
claim requires for sign = -1. -/
theorem C6_counterexample :
    negMetric.sign = -1 ∧
    _dictionary_indexing negMetric [[1]] [[0], [-1]] 2 2 = .ok [[(0, 0), (1, -1)]] ∧
    ¬ ∀ row ∈ scoresOf [[(0, 0), (1, -1)]], row.Pairwise fun a b : ℤ => a ≤ b :=
  ⟨rfl, by decide, by decide⟩

/-- C6 (amended): for sign = +1 every successful driver result has
per-row non-increasing scores (both paths); on the multi-chunk path a
sign = -1 metric gets non-decreasing scores as claimed; but _match_chunk
— and hence the single-pass fast path — always returns non-increasing
scores regardless of the sign of the metric, so the claimed sign = -1 ordering
holds only for the multi-chunk path. -/
theorem C6_amended_row_ordering :
    (∀ (metric : SimilarityMetric) (experimental dictionary : List (List ℤ))
        (keep_n n_per_iteration : Nat) (res : List (List (Nat × ℤ))),
        metric.sign = 1 →
        _dictionary_indexing metric experimental dictionary keep_n n_per_iteration =
            .ok res →
        ∀ row ∈ res, (row.map Prod.snd).Pairwise fun a b : ℤ => b ≤ a) ∧
    (∀ (metric : SimilarityMetric) (experimental dictionary : List (List ℤ))
        (keep_n n_per_iteration n_iterations : Nat),
        metric.sign = -1 →
        ∀ row ∈ multiChunkPath metric experimental dictionary
            keep_n n_per_iteration n_iterations,
          (row.map Prod.snd).Pairwise fun a b : ℤ => a ≤ b) ∧
    ∀ (metric : SimilarityMetric) (experimental simulated : List (List ℤ))
      (keep_n : Nat),
      ∀ row ∈ _match_chunk metric experimental simulated keep_n,
        (row.map Prod.snd).Pairwise fun a b : ℤ => b ≤ a := by
  refine ⟨?_, ?_, ?_⟩
  · intro metric e dct kn np res hsign h row hrow
    exact dictionaryIndexing_ok_rows_sorted metric e dct kn np res h hsign hrow
  · intro metric e dct kn np ni hsign row hrow
    refine (multiChunkPath_mem_row metric e dct kn np ni hrow).imp ?_
    intro a b hab
    rw [hsign] at hab
    omega
  · intro metric e s kn row hrow
    exact matchChunk_mem_row metric e s kn hrow

/-- Witness for the amended C6: the sign = +1 part applied at a concrete
fast-path call. -/
theorem C6_amended_row_ordering_witness :
    ∀ row ∈ ([[((0 : Nat), (0 : ℤ)), (1, -1)]] : List (List (Nat × ℤ))),
      (row.map Prod.snd).Pairwise fun a b : ℤ => b ≤ a :=
  C6_amended_row_ordering.1 exMetric [[1]] [[0], [-1]] 2 2
    [[(0, 0), (1, -1)]] rfl (by decide)

/-- C9: counterexample to the claim as stated.  Neither malformed
argument produces a ConfigurationError: a call with keep_n = 0 (≤ 0)
passes undetected through the (non-existent) validation and fails only
inside _match_chunk, with the ZeroDivisionError raised by its
reshape((-1, 0)), and a call with n_per_iteration = 0 fails with the
ZeroDivisionError raised by the floor division of line 67. -/
theorem C9_counterexample :
    _dictionary_indexing exMetric [[2]] [[0], [-1]] 0 2 = .error .zeroDivisionError ∧
    _dictionary_indexing exMetric [[2]] [[0], [-1]] 3 0 = .error .zeroDivisionError :=
  ⟨by decide, by decide⟩

/-- C9 (amended): the driver validates neither argument and raises no
ConfigurationError.  Every call with n_per_iteration = 0 fails with
ZeroDivisionError raised by dictionary_size // n_per_iteration (line 67,
before any chunk is processed), and every call with keep_n = 0 and
1 ≤ n_per_iteration ≤ dictionary_size fails with ZeroDivisionError
raised by the reshape((-1, 0)) inside the first _match_chunk call (line
172) — on the fast path as well as in the first iteration of the
multi-chunk loop, i.e. only after chunk preparation has begun, not
before. -/
theorem C9_amended_no_validation :
    (∀ (metric : SimilarityMetric) (experimental dictionary : List (List ℤ))
        (keep_n : Nat),
        _dictionary_indexing metric experimental dictionary keep_n 0 =
          .error .zeroDivisionError) ∧
    ∀ (metric : SimilarityMetric) (experimental dictionary : List (List ℤ))
      (n_per_iteration : Nat),
      n_per_iteration ≠ 0 → n_per_iteration ≤ dictionary.length →
      _dictionary_indexing metric experimental dictionary 0 n_per_iteration =
        .error .zeroDivisionError := by
  constructor
  · intro metric e dct kn
    rfl
  · intro metric e dct np hnp hle
    by_cases hd : dct.length = np
    · simp [_dictionary_indexing, _match_chunk_checked, hnp, hd]
    · have h1 : ¬dct.length / np = 0 := by
        have h2 := (Nat.one_le_div_iff (by omega)).mpr hle
        omega
      simp [_dictionary_indexing, hnp, hd, h1]

/-- Witness for the amended C9 at a concrete fast-path call with
keep_n = 0. -/
theorem C9_amended_no_validation_witness :
    _dictionary_indexing exMetric [[1]] [[0], [-1]] 0 2 = .error .zeroDivisionError :=
  C9_amended_no_validation.2 exMetric [[1]] [[0], [-1]] 2 (by decide) (by decide)

/-- C10: confirmed.  Whenever 0 < dictionary_size < n_per_iteration, the
fast-path test fails, n_iterations = dictionary_size ∕ n_per_iteration
computes to 0, the chunk_ends array (cumsum of an empty list) is empty,
and the driver fails with IndexError (from the chunk_ends[-1] assignment)
before matching any pattern; n_per_iteration is never clamped down to
dictionary_size. -/
theorem C10_small_dictionary_index_error :
    ∀ (metric : SimilarityMetric) (experimental dictionary : List (List ℤ))
      (keep_n n_per_iteration : Nat),
      0 < dictionary.length → dictionary.length < n_per_iteration →
      _dictionary_indexing metric experimental dictionary keep_n n_per_iteration =
          .error .indexError ∧
        cumsum (List.replicate (dictionary.length / n_per_iteration) n_per_iteration) =
          [] := by
  intro metric e dct kn np h1 h2
  have hnp : ¬np = 0 := by omega
  have hne : ¬dct.length = np := by omega
  have hz : dct.length / np = 0 := Nat.div_eq_of_lt h2
  refine ⟨?_, by rw [hz]; rfl⟩
  simp [_dictionary_indexing, hnp, hne, hz]

/-- Witness for C10 at a concrete input with dictionary_size = 3 and
n_per_iteration = 10. -/
theorem C10_small_dictionary_index_error_witness :
    _dictionary_indexing exMetric [[1]] [[0], [-1], [-2]] 2 10 = .error .indexError ∧
    cumsum (List.replicate (([[0], [-1], [-2]] : List (List ℤ)).length / 10) 10) = [] :=
  C10_small_dictionary_index_error exMetric [[1]] [[0], [-1], [-2]] 2 10
    (by decide) (by decide)

end DictIndexing

namespace NormKernel

/-- C7: confirmed.  Normalizing a vector whose L2 norm is already 1
returns it unchanged (exactly, in the real-number model of the float
kernel), and normalizing the vector [3, 4] yields exactly [0.6, 0.8]. -/
theorem C7_normalization_values :
    (∀ v : List ℝ, Real.sqrt ((v.map fun x => x ^ 2).sum) = 1 →
        _normalize_pattern1d_float64 v = v) ∧
    _normalize_pattern1d_float64 [3, 4] = [0.6, 0.8] := by
  constructor
  · intro v hv
    simp only [_normalize_pattern1d_float64, hv, div_one, List.map_id']
  · have h25 : (([3, 4] : List ℝ).map fun x => x ^ 2).sum = 25 := by norm_num
    have h5 : Real.sqrt 25 = 5 := by
      rw [show (25 : ℝ) = 5 ^ 2 from by norm_num,
        Real.sqrt_sq (by norm_num : (0 : ℝ) ≤ 5)]
    simp only [_normalize_pattern1d_float64, h25, h5]
    norm_num

/-- Witness for C7 at the unit vector [1, 0]. -/
theorem C7_normalization_values_witness :
    _normalize_pattern1d_float64 [1, 0] = [1, 0] :=
  C7_normalization_values.1 [1, 0] (by norm_num)

/-- C8: confirmed.  The kernel is exactly the naive
v / sqrt(sum(v_i ^ 2)) computation for every input (no epsilon-guarding
anywhere), and on the all-zero vector the norm it divides by is exactly
0, i.e. the division by the zero norm is carried out unguarded (in IEEE
floats the caller then observes the all-non-finite quotients; in this
real-number model, the unguarded division by zero itself). -/
theorem C8_no_epsilon_guard :
    (∀ v : List ℝ, _normalize_pattern1d_float64 v = naiveL2Normalize v) ∧
    ∀ n : Nat,
      Real.sqrt (((List.replicate n (0 : ℝ)).map fun x => x ^ 2).sum) = 0 ∧
      _normalize_pattern1d_float64 (List.replicate n 0) =
        (List.replicate n (0 : ℝ)).map fun x => x / 0 := by
  constructor
  · intro v
    rfl
  · intro n
    have hz : ((List.replicate n (0 : ℝ)).map fun x => x ^ 2).sum = 0 := by
      rw [List.map_replicate]
      norm_num [List.sum_replicate]
    refine ⟨by rw [hz, Real.sqrt_zero], ?_⟩
    simp only [_normalize_pattern1d_float64, hz, Real.sqrt_zero]

end NormKernel
